import Mathlib

/-!
Shallow embedding of the productivity-metrics engine of `streamlit_app.py`
(class `ProductivityTracker` backed by `FirestoreManager`).

Modelling conventions:
* Calendar dates are modelled as integers (days since an epoch chosen so that
  day 0 is a Monday); Python's `date.weekday()` (Monday = 0) becomes `d % 7`
  and `d2 - d1` in days becomes integer subtraction.
* Python floats are modelled as rationals; all hour values appearing in the
  program are small decimals, and every division in the scoring code guards
  its denominator away from 0, so rational arithmetic is faithful.
* Python dicts that preserve insertion order (`activity_data`,
  `activity_breakdown`, the Firestore document table) are modelled as
  association lists in insertion order.
-/

namespace ProdTracker

/-- A daily-entry record as returned by `FirestoreManager.get_user_entries`:
the fields of the `entry_doc` dictionary that the metrics engine reads. -/
structure Entry where
  date : ℤ
  activity_data : List (String × ℚ)
  total_hours : ℚ
  notes : String
  work_location : String
  mood_score : ℚ
  energy_level : ℚ
deriving DecidableEq, Repr

/-- `ProductivityTracker.get_expected_hours`:
`return 8.8 if location_type == 'offshore' else 8.0`. -/
def get_expected_hours (location_type : String) : ℚ :=
  if location_type = "offshore" then 44/5 else 8

/-- Window start of `calculate_productivity_metrics` (lines 485-494).
`dayOfMonth` is the 1-based day of month of `today`, so that
`end_date.replace(day=1)` is `today - (dayOfMonth - 1)`. -/
def period_start (today : ℤ) (dayOfMonth : ℕ) (period : String) : ℤ :=
  if period = "week" then today - 7
  else if period = "month" then today - ((dayOfMonth : ℤ) - 1)
  else if period = "quarter" then today - 90
  else today - 30

/-- `FirestoreManager.get_user_entries` with both date bounds: keeps entries
with `start_date <= date <= end_date` (both bounds inclusive). -/
def get_user_entries (store : List Entry) (start_date end_date : ℤ) : List Entry :=
  store.filter (fun x => decide (start_date ≤ x.date ∧ x.date ≤ end_date))

/-- One step of `activity_breakdown[activity] =
activity_breakdown.get(activity, 0) + hours` on an insertion-ordered dict. -/
def bumpKey (m : List (String × ℚ)) (k : String) (h : ℚ) : List (String × ℚ) :=
  match m with
  | [] => [(k, h)]
  | p :: rest => if p.1 = k then (p.1, p.2 + h) :: rest else p :: bumpKey rest k h

/-- The activity-breakdown accumulation loop of
`calculate_productivity_metrics` (lines 511-514). -/
def activityBreakdown (entries : List Entry) : List (String × ℚ) :=
  entries.foldl (fun acc e => e.activity_data.foldl (fun m p => bumpKey m p.1 p.2) acc) []

/-- Line 519: `hours_score = min((avg_daily_hours / expected_daily_hours) * 100, 100)`. -/
def hoursScore (avg_daily_hours expected_daily_hours : ℚ) : ℚ :=
  min (avg_daily_hours / expected_daily_hours * 100) 100

/-- The dictionary returned by `calculate_productivity_metrics`. The two
return statements build dicts with different key sets: the empty-window
dict has a `trends` key and no `consistency_score` key, the non-empty one
has `consistency_score` and no `trends`; absent keys are `none`. -/
structure Metrics where
  total_hours : ℚ
  avg_daily_hours : ℚ
  working_days : ℕ
  productivity_score : ℚ
  mood_avg : ℚ
  energy_avg : ℚ
  activity_breakdown : List (String × ℚ)
  consistency_score : Option ℚ
  trends : Option Unit
  expected_daily_hours : ℚ
deriving DecidableEq, Repr

/-- `ProductivityTracker.calculate_productivity_metrics` (lines 483-532).
`today` plays `date.today()`; `dayOfMonth` is its 1-based day of month. -/
def calculate_productivity_metrics (store : List Entry) (today : ℤ) (dayOfMonth : ℕ)
    (period : String) (location_type : String) : Metrics :=
  let end_date := today
  let start_date := period_start today dayOfMonth period
  let df := get_user_entries store start_date end_date
  if df = [] then
    { total_hours := 0, avg_daily_hours := 0, working_days := 0,
      productivity_score := 0, mood_avg := 0, energy_avg := 0,
      activity_breakdown := [], consistency_score := none, trends := some (),
      expected_daily_hours := get_expected_hours location_type }
  else
    let total_hours := (df.map (·.total_hours)).sum
    let working_days := (df.filter (fun x => decide (x.total_hours > 0))).length
    let avg_daily_hours := total_hours / ((max working_days 1 : ℕ) : ℚ)
    let expected_daily_hours := get_expected_hours location_type
    let expected_days : ℤ := end_date - start_date
    let consistency_score := ((working_days : ℚ) / ((max expected_days 1 : ℤ) : ℚ)) * 100
    let hours_score := hoursScore avg_daily_hours expected_daily_hours
    let productivity_score := (consistency_score + hours_score) / 2
    { total_hours := total_hours, avg_daily_hours := avg_daily_hours,
      working_days := working_days, productivity_score := productivity_score,
      mood_avg := (df.map (·.mood_score)).sum / (df.length : ℚ),
      energy_avg := (df.map (·.energy_level)).sum / (df.length : ℚ),
      activity_breakdown := activityBreakdown df,
      consistency_score := some consistency_score, trends := none,
      expected_daily_hours := expected_daily_hours }

/-- The messages `generate_insights` can append, abstracted from their
presentation strings (the triggering conditions and ordering are the
contract; the string templates are presentation). -/
inductive Insight where
  | tierExcellent
  | tierGood
  | tierImprove
  | tierAttention
  | hoursIncrease
  | hoursHigh
  | hoursTarget
  | topActivity (activity : String)
  | lowMood
  | lowEnergy
deriving DecidableEq, Repr

/-- The productivity-tier selection of `generate_insights` (lines 542-549):
the if/elif/elif/else chain on `metrics['productivity_score']`. -/
def tierInsight (score : ℚ) : Insight :=
  if score ≥ 90 then .tierExcellent
  else if score ≥ 75 then .tierGood
  else if score ≥ 60 then .tierImprove
  else .tierAttention

/-- `max(metrics['activity_breakdown'], key=metrics['activity_breakdown'].get)`:
the first key (in insertion order) whose value is maximal. -/
def maxActivity (breakdown : List (String × ℚ)) : String :=
  match breakdown with
  | [] => ""
  | p :: rest => (rest.foldl (fun best q => if q.2 > best.2 then q else best) p).1

/-- `ProductivityTracker.generate_insights` (lines 534-570): computes
metrics for period `'month'`, then appends the tier message, at most one
hours message, the top-activity message, and the mood/energy messages. -/
def generate_insights (store : List Entry) (today : ℤ) (dayOfMonth : ℕ)
    (location_type : String) : List Insight :=
  let metrics := calculate_productivity_metrics store today dayOfMonth "month" location_type
  let expected_hours := get_expected_hours location_type
  let tier := tierInsight metrics.productivity_score
  let hours : List Insight :=
    if metrics.avg_daily_hours < expected_hours - 1 then [.hoursIncrease]
    else if metrics.avg_daily_hours > expected_hours + 2 then [.hoursHigh]
    else if |metrics.avg_daily_hours - expected_hours| ≤ 1/2 then [.hoursTarget]
    else []
  let activity : List Insight :=
    if metrics.activity_breakdown ≠ [] then [.topActivity (maxActivity metrics.activity_breakdown)]
    else []
  let mood : List Insight := if metrics.mood_avg < 6 then [.lowMood] else []
  let energy : List Insight := if metrics.energy_avg < 6 then [.lowEnergy] else []
  [tier] ++ hours ++ activity ++ mood ++ energy

/-! ## Calendar aggregation (`show_calendar_view`, lines 1149-1201) -/

/-- `first_day - timedelta(days=first_day.weekday())`: the Monday on or
before `monthStart` (day 0 of the epoch is a Monday, so `weekday = d % 7`). -/
def first_monday (monthStart : ℤ) : ℤ := monthStart - monthStart % 7

/-- `last_day + timedelta(days=(6 - last_day.weekday()))`: the Sunday on or
after `monthEnd`. -/
def last_sunday (monthEnd : ℤ) : ℤ := monthEnd + (6 - monthEnd % 7)

/-- `pd.date_range(a, ...)` of `n` consecutive days starting at `a`. -/
def dayRange (a : ℤ) (n : ℕ) : List ℤ := (List.range n).map (fun i : ℕ => a + (i : ℤ))

/-- The fill loop `for _, row in df.iterrows(): calendar_data[row['date']] =
row['total_hours']` over a series initialised to `0.0`: later rows overwrite
earlier ones at the same date. -/
def calendarFill (entries : List Entry) : ℤ → ℚ :=
  entries.foldl (fun f e => fun d => if d = e.date then e.total_hours else f d) (fun _ => 0)

/-- The padded calendar cells of `show_calendar_view`: one `(date, hours)`
cell per day from `first_monday` to `last_sunday`; in-month cells carry the
filled hours, out-of-month padding cells carry `0.0`. The heatmap matrix is
this list reshaped row-major into `len // 7` rows of 7. -/
def calendarCells (monthStart monthEnd : ℤ) (store : List Entry) : List (ℤ × ℚ) :=
  let fm := first_monday monthStart
  let ls := last_sunday monthEnd
  let fill := calendarFill (get_user_entries store monthStart monthEnd)
  (dayRange fm (ls - fm + 1).toNat).map
    (fun d => (d, if monthStart ≤ d ∧ d ≤ monthEnd then fill d else 0))

/-- The in-month cells of the calendar matrix. -/
def inMonthCells (monthStart monthEnd : ℤ) (store : List Entry) : List (ℤ × ℚ) :=
  (calendarCells monthStart monthEnd store).filter
    (fun c => decide (monthStart ≤ c.1 ∧ c.1 ≤ monthEnd))

/-! ## Persistence (`FirestoreManager.save_daily_entry`, lines 212-237, and
`ProductivityTracker.save_daily_entry`, lines 455-471) -/

/-- The stored Firestore document for one daily entry (the non-timestamp
fields of `entry_doc`; `date` is the ISO date string `date_str`). -/
structure EntryDoc where
  user_id : String
  date : String
  activity_data : List (String × ℚ)
  total_hours : ℚ
  notes : String
  work_location : String
  mood_score : ℚ
  energy_level : ℚ
deriving DecidableEq, Repr

/-- Set one key of an insertion-ordered map, overwriting in place. -/
def setKey (m : List (String × ℚ)) (k : String) (v : ℚ) : List (String × ℚ) :=
  match m with
  | [] => [(k, v)]
  | p :: rest => if p.1 = k then (p.1, v) :: rest else p :: setKey rest k v

/-- Firestore merge of a map-valued field under `set(..., merge=True)`:
every key of `new` overwrites, keys only in `old` are kept. -/
def mergeMap (old new : List (String × ℚ)) : List (String × ℚ) :=
  new.foldl (fun acc p => setKey acc p.1 p.2) old

/-- Replace the document bound to `docId`, or append a fresh binding. -/
def setDoc (db : List (String × EntryDoc)) (docId : String) (d : EntryDoc) :
    List (String × EntryDoc) :=
  match db with
  | [] => [(docId, d)]
  | p :: rest => if p.1 = docId then (p.1, d) :: rest else p :: setDoc rest docId d

/-- Look up a document by id. -/
def getDoc (db : List (String × EntryDoc)) (docId : String) : Option EntryDoc :=
  (db.find? (fun p => decide (p.1 = docId))).map (·.2)

/-- `self.db.collection('daily_entries').document(doc_id).set(entry_doc,
merge=True)`: with `merge=True` the client merges field paths into an
existing document, so the map-valued `activity_data` field is merged
key-by-key (stale keys of the old map survive) while scalar fields are
overwritten; a missing document is created from `entry_doc`. -/
def firestore_set_merge (db : List (String × EntryDoc)) (docId : String) (d : EntryDoc) :
    List (String × EntryDoc) :=
  match getDoc db docId with
  | none => db ++ [(docId, d)]
  | some old => setDoc db docId { d with activity_data := mergeMap old.activity_data d.activity_data }

/-- `ProductivityTracker.save_daily_entry` composed with
`FirestoreManager.save_daily_entry`: computes `total_hours =
sum(activity_data.values())`, builds `entry_doc` with `doc_id =
f"{user_id}_{date_str}"`, and writes it with `set(..., merge=True)`. -/
def save_daily_entry (db : List (String × EntryDoc)) (user_id : String) (date_str : String)
    (activity_data : List (String × ℚ)) (notes work_location : String)
    (mood_score energy_level : ℚ) : List (String × EntryDoc) :=
  let total_hours := (activity_data.map (·.2)).sum
  let doc : EntryDoc :=
    { user_id := user_id, date := date_str, activity_data := activity_data,
      total_hours := total_hours, notes := notes, work_location := work_location,
      mood_score := mood_score, energy_level := energy_level }
  firestore_set_merge db (user_id ++ "_" ++ date_str) doc

/-! ## Export (`ProductivityTracker.export_data`, lines 571-701) -/

/-- One flattened export row: the entry with `activity_data` spread into
per-activity columns and the internal `id`/`user_id` fields dropped. -/
structure ExportRow where
  date : ℤ
  total_hours : ℚ
  notes : String
  work_location : String
  mood_score : ℚ
  energy_level : ℚ
  activity_columns : List (String × ℚ)
deriving DecidableEq, Repr

/-- The activity-column ids present in at least one entry, in first-seen
order (the `activity_cols` collection loop, lines 589-595). -/
def activityColumnIds (entries : List Entry) : List String :=
  entries.foldl (fun acc e =>
    e.activity_data.foldl (fun acc2 p => if p.1 ∈ acc2 then acc2 else acc2 ++ [p.1]) acc) []

/-- Flatten the fetched entries into export rows: every activity column
present anywhere appears in every row, defaulting to `0`. -/
def exportRows (entries : List Entry) : List ExportRow :=
  let cols := activityColumnIds entries
  entries.map (fun e =>
    { date := e.date, total_hours := e.total_hours, notes := e.notes,
      work_location := e.work_location, mood_score := e.mood_score,
      energy_level := e.energy_level,
      activity_columns := cols.map (fun c =>
        (c, match e.activity_data.find? (fun p => decide (p.1 = c)) with
            | some p => p.2
            | none => 0)) })

/-- The payload `export_data` returns, abstracted from byte encoding (the
spec keeps content in scope and encoding out): the early-return sentinel
`b"No data available for export"`, one constructor per format branch, and
the `b"Invalid format specified"` fallback. -/
inductive ExportResult where
  | noData
  | csv (rows : List ExportRow)
  | excel (rows : List ExportRow) (summaryEntries : ℕ) (summaryTotal : ℚ)
  | json (totalEntries : ℕ) (data : List ExportRow)
  | invalidFormat
deriving DecidableEq, Repr

/-- `ProductivityTracker.export_data`: fetches all entries for the user
(no date bound; `store` is that fetch result), returns the no-data
sentinel when there are none, otherwise dispatches on `format_type`. -/
def export_data (store : List Entry) (format_type : String) : ExportResult :=
  if store = [] then .noData
  else
    let rows := exportRows store
    if format_type = "csv" then .csv rows
    else if format_type = "excel" then
      .excel rows rows.length ((store.map (·.total_hours)).sum)
    else if format_type = "json" then .json rows.length rows
    else .invalidFormat

/-! ## Concrete stores used in worked examples and counterexamples -/

/-- A store entry with 8 logged hours of troubleshooting on day `d`. -/
def entry8 (d : ℤ) : Entry := ⟨d, [("troubleshooting", 8)], 8, "", "office", 5, 5⟩

/-- Five 8-hour entries on 5 distinct days inside the week window ending at
day 0 (the worked example of the spec). -/
def weekStore5 : List Entry := [entry8 (-6), entry8 (-5), entry8 (-4), entry8 (-3), entry8 (-2)]

/-- Eight 8-hour entries on the 8 distinct calendar days the week window
`[today - 7, today]` spans (today = day 0). -/
def weekStore8 : List Entry :=
  [entry8 (-7), entry8 (-6), entry8 (-5), entry8 (-4), entry8 (-3), entry8 (-2), entry8 (-1), entry8 0]

/-- `True` on the four productivity-tier messages. -/
def isTier : Insight → Bool
  | .tierExcellent => true
  | .tierGood => true
  | .tierImprove => true
  | .tierAttention => true
  | _ => false

/-- Rank of a tier message, higher tier higher rank (non-tier messages rank 0). -/
def tierRank : Insight → ℕ
  | .tierExcellent => 3
  | .tierGood => 2
  | .tierImprove => 1
  | _ => 0

/-! ## Theorems -/

/-- C1 (amended): under the data-model invariant that stored total hours are
nonnegative, the productivity score is always ≥ 0, and it is ≤ 100 whenever
the number of working days in the window does not exceed
`max(expected_days, 1)`. Without that bound the score can exceed 100,
because the fetch window is inclusive on both ends and so spans
`expected_days + 1` calendar days (see the counterexample). -/
theorem claim1_score_bounds_amended :
    ∀ (store : List Entry) (today : ℤ) (dom : ℕ) (period loc : String),
      (∀ e ∈ store, 0 ≤ e.total_hours) →
      0 ≤ (calculate_productivity_metrics store today dom period loc).productivity_score ∧
      (((calculate_productivity_metrics store today dom period loc).working_days : ℤ) ≤
          max (today - period_start today dom period) 1 →
        (calculate_productivity_metrics store today dom period loc).productivity_score ≤ 100) := by
  intro store today dom period loc hnn
  by_cases h : get_user_entries store (period_start today dom period) today = []
  · simp [calculate_productivity_metrics, if_pos h]
  · simp only [calculate_productivity_metrics, if_neg h]
    set df := get_user_entries store (period_start today dom period) today with hdf
    set wd := (df.filter (fun x => decide (x.total_hours > 0))).length with hwd
    set ed := today - period_start today dom period with hed
    set total := (df.map (fun x => x.total_hours)).sum with htotal
    have hden : (0:ℚ) < ((max ed 1 : ℤ) : ℚ) := by
      have : (1:ℤ) ≤ max ed 1 := le_max_right _ _
      exact_mod_cast lt_of_lt_of_le zero_lt_one this
    have hexp : (0:ℚ) < get_expected_hours loc := by
      unfold get_expected_hours
      split_ifs <;> norm_num
    have htot0 : (0:ℚ) ≤ total := by
      apply List.sum_nonneg
      intro a ha
      obtain ⟨e, he, rfl⟩ := List.mem_map.mp ha
      have : e ∈ store := (List.mem_filter.mp (hdf ▸ he)).1
      exact hnn e this
    have hhs0 : (0:ℚ) ≤ hoursScore (total / ((max wd 1 : ℕ) : ℚ)) (get_expected_hours loc) :=
      le_min (by positivity) (by norm_num)
    have hhs100 : hoursScore (total / ((max wd 1 : ℕ) : ℚ)) (get_expected_hours loc) ≤ 100 :=
      min_le_right _ _
    have hc0 : (0:ℚ) ≤ ((wd : ℚ) / ((max ed 1 : ℤ) : ℚ)) * 100 := by positivity
    constructor
    · positivity
    · intro hbound
      have hwdq : (wd : ℚ) ≤ ((max ed 1 : ℤ) : ℚ) := by exact_mod_cast hbound
      have hc100 : ((wd : ℚ) / ((max ed 1 : ℤ) : ℚ)) * 100 ≤ 100 := by
        have h1 : (wd : ℚ) / ((max ed 1 : ℤ) : ℚ) ≤ 1 := (div_le_one hden).mpr hwdq
        nlinarith
      linarith

/-- C1 counterexample: with one 8-hour entry on each of the 8 calendar days
the inclusive week window `[today - 7, today]` spans, the score is
(800/7 + 100)/2 ≈ 107.14 > 100, refuting the claim that it never exceeds
100. -/
theorem claim1_counterexample :
    ¬ ((calculate_productivity_metrics weekStore8 0 15 "week" "onshore").productivity_score ≤ 100) := by
  simp [calculate_productivity_metrics, get_user_entries, period_start, weekStore8, entry8,
    hoursScore, activityBreakdown, bumpKey, get_expected_hours]
  norm_num [min_def]

/-- C1 witness: the amended bounds at a concrete 5-working-day week window. -/
theorem claim1_witness :
    0 ≤ (calculate_productivity_metrics weekStore5 0 15 "week" "onshore").productivity_score ∧
    (calculate_productivity_metrics weekStore5 0 15 "week" "onshore").productivity_score ≤ 100 := by
  have hnn : ∀ e ∈ weekStore5, (0:ℚ) ≤ e.total_hours := by
    intro e he
    fin_cases he <;> norm_num [entry8]
  have h := claim1_score_bounds_amended weekStore5 0 15 "week" "onshore" hnn
  refine ⟨h.1, h.2 ?_⟩
  simp [calculate_productivity_metrics, get_user_entries, period_start, weekStore5, entry8]

/-- C2: evaluation at the failing input. Saving `(u, d)` with activity map
`{a: 2, b: 3}` and then re-saving the same key with the changed map
`{a: 5}` leaves a stored document whose `activity_data` is the deep-merged
`{a: 5, b: 3}` (Firestore `set(..., merge=True)` merges map fields) while
`total_hours` is 5, the sum of the second map only — so the stored entry
violates `total_hours == sum(activity_data.values())`. -/
theorem claim2_merge_breaks_total_invariant :
    ∃ d : EntryDoc,
      getDoc (save_daily_entry (save_daily_entry [] "u" "2024-06-01" [("a", 2), ("b", 3)] "" "office" 5 5)
          "u" "2024-06-01" [("a", 5)] "" "office" 5 5) "u_2024-06-01" = some d ∧
      d.total_hours ≠ (d.activity_data.map (·.2)).sum := by
  refine ⟨⟨"u", "2024-06-01", [("a", 5), ("b", 3)], 5, "", "office", 5, 5⟩, ?_, by norm_num⟩
  simp [save_daily_entry, firestore_set_merge, getDoc, setDoc, mergeMap, setKey]

/-- C3: for a user with exactly 5 entries of totalHours = 8.0 each inside the
7-day week window and locationType = onshore, `calculate_productivity_metrics`
returns total_hours = 40.0, working_days = 5, avg_daily_hours = 8.0,
consistency_score = (5/7)*100 (≈ 71.43) and productivity_score =
((5/7)*100 + 100)/2 = 600/7 (≈ 85.71). -/
theorem claim3_worked_example :
    (calculate_productivity_metrics weekStore5 0 15 "week" "onshore").total_hours = 40 ∧
    (calculate_productivity_metrics weekStore5 0 15 "week" "onshore").working_days = 5 ∧
    (calculate_productivity_metrics weekStore5 0 15 "week" "onshore").avg_daily_hours = 8 ∧
    (calculate_productivity_metrics weekStore5 0 15 "week" "onshore").consistency_score =
      some (5 / 7 * 100) ∧
    (calculate_productivity_metrics weekStore5 0 15 "week" "onshore").productivity_score =
      (5 / 7 * 100 + 100) / 2 := by
  simp [calculate_productivity_metrics, get_user_entries, period_start, weekStore5,
    entry8, hoursScore, activityBreakdown, bumpKey, get_expected_hours]
  norm_num [min_def]

/-- C7: the hours-score component `min((avg/expected)*100, 100)` never
exceeds 100, it equals 100 at avg = 20 with expected = 8.0, and on every
non-empty window the productivity score is built from exactly this capped
component: score = (consistency + hoursScore avg expected)/2. -/
theorem claim7_hours_score_capped :
    (∀ avg expected : ℚ, hoursScore avg expected ≤ 100) ∧
    hoursScore 20 8 = 100 ∧
    (∀ (store : List Entry) (today : ℤ) (dom : ℕ) (period loc : String),
      get_user_entries store (period_start today dom period) today ≠ [] →
      (calculate_productivity_metrics store today dom period loc).productivity_score =
        ((calculate_productivity_metrics store today dom period loc).consistency_score.getD 0 +
          hoursScore (calculate_productivity_metrics store today dom period loc).avg_daily_hours
            (calculate_productivity_metrics store today dom period loc).expected_daily_hours) / 2) := by
  refine ⟨fun avg expected => min_le_right _ _, by norm_num [hoursScore, min_def], ?_⟩
  intro store today dom period loc h
  simp only [calculate_productivity_metrics, if_neg h, Option.getD_some]

/-- C7 witness at a concrete non-empty window. -/
theorem claim7_witness :
    (calculate_productivity_metrics weekStore5 0 15 "week" "onshore").productivity_score =
      ((calculate_productivity_metrics weekStore5 0 15 "week" "onshore").consistency_score.getD 0 +
        hoursScore (calculate_productivity_metrics weekStore5 0 15 "week" "onshore").avg_daily_hours
          (calculate_productivity_metrics weekStore5 0 15 "week" "onshore").expected_daily_hours) / 2 :=
  claim7_hours_score_capped.2.2 weekStore5 0 15 "week" "onshore" (by decide)

/-- C8: on a window containing no entries, `calculate_productivity_metrics`
returns (without raising) the zero-valued dictionary: score 0, total 0, no
working days, empty breakdown, and expected_daily_hours exactly the work
profile for the location type (8.8 for "offshore", 8.0 for any other value). -/
theorem claim8_empty_window :
    ∀ (store : List Entry) (today : ℤ) (dom : ℕ) (period loc : String),
      get_user_entries store (period_start today dom period) today = [] →
      calculate_productivity_metrics store today dom period loc =
        { total_hours := 0, avg_daily_hours := 0, working_days := 0,
          productivity_score := 0, mood_avg := 0, energy_avg := 0,
          activity_breakdown := [], consistency_score := none, trends := some (),
          expected_daily_hours := if loc = "offshore" then 44/5 else 8 } := by
  intro store today dom period loc h
  simp only [calculate_productivity_metrics, if_pos h, get_expected_hours]

/-- C8 witness: a store whose only entry lies outside the quarter window. -/
theorem claim8_witness :
    calculate_productivity_metrics [entry8 (-365)] 0 15 "quarter" "offshore" =
      { total_hours := 0, avg_daily_hours := 0, working_days := 0,
        productivity_score := 0, mood_avg := 0, energy_avg := 0,
        activity_breakdown := [], consistency_score := none, trends := some (),
        expected_daily_hours := if "offshore" = "offshore" then 44/5 else 8 } :=
  claim8_empty_window [entry8 (-365)] 0 15 "quarter" "offshore" (by decide)

/-- `dayRange` has no repeated days. -/
lemma dayRange_nodup (a : ℤ) (n : ℕ) : (dayRange a n).Nodup := by
  unfold dayRange
  refine List.Nodup.map ?_ (List.nodup_range n)
  intro i j h
  simpa using h

/-- Membership in a day range is the interval condition. -/
lemma mem_dayRange {a : ℤ} {n : ℕ} {d : ℤ} : d ∈ dayRange a n ↔ a ≤ d ∧ d < a + n := by
  unfold dayRange
  simp only [List.mem_map, List.mem_range]
  constructor
  · rintro ⟨i, hi, rfl⟩
    omega
  · rintro ⟨h1, h2⟩
    exact ⟨(d - a).toNat, by omega, by omega⟩

/-- The calendar fill loop processes its last row as an overwrite. -/
lemma calendarFill_append (es : List Entry) (x : Entry) :
    calendarFill (es ++ [x]) = fun d => if d = x.date then x.total_hours else calendarFill es d := by
  unfold calendarFill
  rw [List.foldl_append]
  rfl

/-- Days with no entry keep the series default `0.0`. -/
lemma calendarFill_eq_zero : ∀ (es : List Entry) (d : ℤ),
    d ∉ es.map (·.date) → calendarFill es d = 0 := by
  intro es
  induction es using List.reverseRecOn with
  | nil => intro d _; rfl
  | append_singleton es x ih =>
    intro d hd
    rw [List.map_append] at hd
    simp only [List.mem_append, List.map_cons, List.map_nil, List.mem_singleton,
      not_or] at hd
    simp only [calendarFill_append]
    rw [if_neg hd.2]
    exact ih d hd.1

/-- Summing a pointwise-updated function over a duplicate-free index list. -/
lemma sum_map_update (ds : List ℤ) (g : ℤ → ℚ) (d0 : ℤ) (a : ℚ)
    (hnd : ds.Nodup) (hmem : d0 ∈ ds) :
    (ds.map (fun d => if d = d0 then a else g d)).sum = a + (ds.map g).sum - g d0 := by
  induction ds with
  | nil => cases hmem
  | cons d ds ih =>
    rcases List.nodup_cons.mp hnd with ⟨hd, hnd2⟩
    by_cases hdd : d = d0
    · subst hdd
      have hmap : ds.map (fun x => if x = d then a else g x) = ds.map g := by
        apply List.map_congr_left
        intro x hx
        rw [if_neg]
        intro hxe
        exact hd (hxe ▸ hx)
      simp [hmap]
      ring
    · have hmem2 : d0 ∈ ds := by
        rcases List.mem_cons.mp hmem with h | h
        · exact absurd h.symm hdd
        · exact h
      simp only [List.map_cons, List.sum_cons, if_neg hdd]
      rw [ih hnd2 hmem2]
      ring

/-- Summing the filled series over a duplicate-free day list that covers all
entry dates recovers the sum of the entries' total hours. -/
lemma calendarFill_sum (p : ℤ → Prop) [DecidablePred p] :
    ∀ (es : List Entry) (ds : List ℤ), ds.Nodup → (es.map (·.date)).Nodup →
      (∀ x ∈ es, x.date ∈ ds) → (∀ x ∈ es, p x.date) →
      (ds.map (fun d => if p d then calendarFill es d else 0)).sum =
        (es.map (·.total_hours)).sum := by
  intro es
  induction es using List.reverseRecOn with
  | nil =>
    intro ds _ _ _ _
    have hz : (ds.map (fun d => if p d then calendarFill [] d else 0)) =
        ds.map (fun _ => (0:ℚ)) := by
      apply List.map_congr_left
      intro d _
      have h0 : calendarFill [] d = 0 := rfl
      rw [h0, ite_self]
    rw [hz]
    simp
  | append_singleton es x ih =>
    intro ds hds hnd hsub hp
    rw [List.map_append] at hnd
    rw [List.nodup_append] at hnd
    obtain ⟨hnd1, _, hdisj⟩ := hnd
    have hx_not : x.date ∉ es.map (·.date) := by
      intro hmem
      exact hdisj hmem (by simp)
    have hpx : p x.date := hp x (by simp)
    have key : ∀ d ∈ ds, (if p d then calendarFill (es ++ [x]) d else 0) =
        (if d = x.date then x.total_hours else (if p d then calendarFill es d else 0)) := by
      intro d _
      rw [calendarFill_append]
      by_cases hdx : d = x.date
      · subst hdx
        simp [hpx]
      · simp [hdx]
    rw [List.map_congr_left key]
    rw [sum_map_update ds (fun d => if p d then calendarFill es d else 0) x.date x.total_hours
      hds (hsub x (by simp))]
    have hg0 : (if p x.date then calendarFill es x.date else 0) = 0 := by
      rw [calendarFill_eq_zero es x.date hx_not, ite_self]
    rw [hg0, ih ds hds hnd1 (fun y hy => hsub y (by simp [hy])) (fun y hy => hp y (by simp [hy]))]
    simp
    ring

/-- Filtering the date-keyed cells by the window condition and summing the
cell values is the same as summing over the filtered day list. -/
lemma filter_map_snd_sum (l : List ℤ) (f : ℤ → ℚ) (s e : ℤ) :
    (((l.map (fun d => (d, f d))).filter (fun c => decide (s ≤ c.1 ∧ c.1 ≤ e))).map (·.2)).sum =
      ((l.filter (fun d => decide (s ≤ d ∧ d ≤ e))).map f).sum := by
  induction l with
  | nil => rfl
  | cons d l ih =>
    by_cases h : s ≤ d ∧ d ≤ e
    · simp only [List.map_cons, List.filter_cons, decide_eq_true h, if_true, List.sum_cons, ih]
    · simp only [List.map_cons, List.filter_cons, decide_eq_false h, Bool.false_eq_true,
        if_false, ih]

/-- Fetched entries lie inside the requested window. -/
lemma get_user_entries_bounds {store : List Entry} {s e : ℤ} {x : Entry}
    (hx : x ∈ get_user_entries store s e) : s ≤ x.date ∧ x.date ≤ e := by
  unfold get_user_entries at hx
  have h2 := (List.mem_filter.mp hx).2
  exact of_decide_eq_true h2

/-- Fetching preserves duplicate-freeness of entry dates. -/
lemma get_user_entries_dates_nodup {store : List Entry} {s e : ℤ}
    (hnd : (store.map (·.date)).Nodup) :
    ((get_user_entries store s e).map (·.date)).Nodup := by
  unfold get_user_entries
  exact hnd.sublist (List.Sublist.map _ (List.filter_sublist store))

/-- The in-month cells of the padded calendar sum to the fetched total. -/
lemma inMonthCells_sum (s e : ℤ) (store : List Entry)
    (hnd : (store.map (·.date)).Nodup) :
    ((inMonthCells s e store).map (·.2)).sum =
      ((get_user_entries store s e).map (·.total_hours)).sum := by
  simp only [inMonthCells, calendarCells]
  rw [filter_map_snd_sum]
  apply calendarFill_sum (fun d => s ≤ d ∧ d ≤ e)
  · exact (dayRange_nodup _ _).filter _
  · exact get_user_entries_dates_nodup hnd
  · intro x hx
    obtain ⟨hxs, hxe⟩ := get_user_entries_bounds hx
    rw [List.mem_filter]
    constructor
    · rw [mem_dayRange]
      unfold first_monday last_sunday
      have h1 : 0 ≤ s % 7 := Int.emod_nonneg s (by norm_num)
      have h2 : 0 ≤ e % 7 := Int.emod_nonneg e (by norm_num)
      have h3 : e % 7 < 7 := Int.emod_lt_of_pos e (by norm_num)
      constructor <;> omega
    · exact decide_eq_true ⟨hxs, hxe⟩
  · intro x hx
    exact get_user_entries_bounds hx

/-- C4: the padded month calendar always has a cell count divisible by 7,
out-of-month padding cells carry hours 0, and (for a store with at most one
entry per date) the in-month cells' hour values sum to the same total as
summing the fetched entries for the month directly. -/
theorem claim4_calendar_matrix :
    ∀ (monthStart monthEnd : ℤ) (store : List Entry),
      7 ∣ (calendarCells monthStart monthEnd store).length ∧
      (∀ c ∈ calendarCells monthStart monthEnd store,
        ¬(monthStart ≤ c.1 ∧ c.1 ≤ monthEnd) → c.2 = 0) ∧
      ((store.map (·.date)).Nodup →
        ((inMonthCells monthStart monthEnd store).map (·.2)).sum =
          ((get_user_entries store monthStart monthEnd).map (·.total_hours)).sum) := by
  intro monthStart monthEnd store
  refine ⟨?_, ?_, ?_⟩
  · simp only [calendarCells, dayRange, List.length_map, List.length_range]
    unfold first_monday last_sunday
    omega
  · intro c hc hnot
    simp only [calendarCells, List.mem_map] at hc
    obtain ⟨d, hd, rfl⟩ := hc
    simp only at hnot ⊢
    rw [if_neg hnot]
  · intro hnd
    exact inMonthCells_sum monthStart monthEnd store hnd

/-- C4 witness: a concrete 2-day month with a single 8-hour entry. -/
theorem claim4_witness :
    7 ∣ (calendarCells 0 1 [entry8 0]).length ∧
    ((inMonthCells 0 1 [entry8 0]).map (·.2)).sum =
      ((get_user_entries [entry8 0] 0 1).map (·.total_hours)).sum :=
  ⟨(claim4_calendar_matrix 0 1 [entry8 0]).1,
    (claim4_calendar_matrix 0 1 [entry8 0]).2.2 (by simp [entry8])⟩

/-- The productivity-tier selection always yields a tier message. -/
lemma isTier_tierInsight (s : ℚ) : isTier (tierInsight s) = true := by
  unfold tierInsight isTier
  split_ifs <;> rfl

/-- A tier message is never the increase-hours message. -/
lemma hoursIncrease_ne_tierInsight (s : ℚ) : ¬ (Insight.hoursIncrease = tierInsight s) := by
  unfold tierInsight
  split_ifs <;> decide

/-- A tier message is never the high-volume message. -/
lemma hoursHigh_ne_tierInsight (s : ℚ) : ¬ (Insight.hoursHigh = tierInsight s) := by
  unfold tierInsight
  split_ifs <;> decide

/-- A tier message is never the meeting-target message. -/
lemma hoursTarget_ne_tierInsight (s : ℚ) : ¬ (Insight.hoursTarget = tierInsight s) := by
  unfold tierInsight
  split_ifs <;> decide

/-- Membership in a conditionally-emitted singleton segment. -/
lemma mem_ite_singleton {α : Type} (c : Prop) [Decidable c] (a b : α) :
    (a ∈ if c then [b] else []) ↔ c ∧ a = b := by
  split_ifs with h <;> simp [h]

/-- C5: `generate_insights` returns between 1 and 5 messages, the first is
the single productivity-tier message for the month productivity score, no
other tier message appears, and the selected tier is monotone in the score
(a strictly higher score never selects a strictly lower tier). -/
theorem claim5_insights_shape :
    ∀ (store : List Entry) (today : ℤ) (dom : ℕ) (loc : String),
      (1 ≤ (generate_insights store today dom loc).length ∧
        (generate_insights store today dom loc).length ≤ 5) ∧
      (generate_insights store today dom loc).head? =
        some (tierInsight
          (calculate_productivity_metrics store today dom "month" loc).productivity_score) ∧
      (generate_insights store today dom loc).countP isTier = 1 ∧
      (∀ s t : ℚ, s < t → tierRank (tierInsight s) ≤ tierRank (tierInsight t)) := by
  intro store today dom loc
  refine ⟨?_, ?_, ?_, ?_⟩
  · simp only [generate_insights, List.length_append, List.singleton_append]
    split_ifs <;> simp
  · simp [generate_insights]
  · simp only [generate_insights, List.singleton_append, List.countP_cons, List.countP_append,
      isTier_tierInsight]
    split_ifs <;> simp [List.countP_cons, isTier]
  · intro s t hst
    unfold tierInsight
    split_ifs <;> simp [tierRank] <;> linarith

/-- C5 witness: the tier ranks at scores 0 and 95 respect monotonicity. -/
theorem claim5_witness :
    tierRank (tierInsight 0) ≤ tierRank (tierInsight 95) :=
  (claim5_insights_shape [] 0 1 "onshore").2.2.2 0 95 (by norm_num)

/-- The three hours messages appear in `generate_insights` exactly under
the conditions of the if/elif/elif chain (the elif guards are redundant:
each later condition already excludes the earlier ones). -/
lemma insights_hours_mem (store : List Entry) (today : ℤ) (dom : ℕ) (loc : String) :
    (Insight.hoursIncrease ∈ generate_insights store today dom loc ↔
      (calculate_productivity_metrics store today dom "month" loc).avg_daily_hours <
        get_expected_hours loc - 1) ∧
    (Insight.hoursHigh ∈ generate_insights store today dom loc ↔
      (calculate_productivity_metrics store today dom "month" loc).avg_daily_hours >
        get_expected_hours loc + 2) ∧
    (Insight.hoursTarget ∈ generate_insights store today dom loc ↔
      |(calculate_productivity_metrics store today dom "month" loc).avg_daily_hours -
        get_expected_hours loc| ≤ 1/2) := by
  simp only [generate_insights]
  set m := calculate_productivity_metrics store today dom "month" loc with hm
  set e := get_expected_hours loc with he
  by_cases hc1 : m.avg_daily_hours < e - 1 <;>
    by_cases hc2 : m.avg_daily_hours > e + 2 <;>
    by_cases hc3 : |m.avg_daily_hours - e| ≤ 1/2 <;>
    first
      | (exfalso; rw [abs_le] at hc3; rcases hc3 with ⟨h31, h32⟩; linarith)
      | (exfalso; linarith)
      | (simp [hc1, hc2, hc3, List.singleton_append, List.mem_cons, List.mem_append,
          mem_ite_singleton, hoursIncrease_ne_tierInsight, hoursHigh_ne_tierInsight,
          hoursTarget_ne_tierInsight]; done)
      | (simp [hc1, hc2, hc3, List.singleton_append, List.mem_cons, List.mem_append,
          mem_ite_singleton, hoursIncrease_ne_tierInsight, hoursHigh_ne_tierInsight,
          hoursTarget_ne_tierInsight]
         rw [lt_abs]
         first
           | (left; linarith)
           | (right; linarith))

/-- C6: the increase-hours message fires iff avg < expected − 1, the
high-volume message iff avg > expected + 2, the meeting-target message iff
|avg − expected| ≤ 0.5, and in the silent gap — between 0.5 and 1 under the
expected daily hours, or between 0.5 and 2 over it — no hours-related
message is emitted. -/
theorem claim6_hours_message_conditions :
    ∀ (store : List Entry) (today : ℤ) (dom : ℕ) (loc : String),
      (Insight.hoursIncrease ∈ generate_insights store today dom loc ↔
        (calculate_productivity_metrics store today dom "month" loc).avg_daily_hours <
          get_expected_hours loc - 1) ∧
      (Insight.hoursHigh ∈ generate_insights store today dom loc ↔
        (calculate_productivity_metrics store today dom "month" loc).avg_daily_hours >
          get_expected_hours loc + 2) ∧
      (Insight.hoursTarget ∈ generate_insights store today dom loc ↔
        |(calculate_productivity_metrics store today dom "month" loc).avg_daily_hours -
          get_expected_hours loc| ≤ 1/2) ∧
      ((get_expected_hours loc - 1 ≤
            (calculate_productivity_metrics store today dom "month" loc).avg_daily_hours ∧
          (calculate_productivity_metrics store today dom "month" loc).avg_daily_hours <
            get_expected_hours loc - 1/2) ∨
        (get_expected_hours loc + 1/2 <
            (calculate_productivity_metrics store today dom "month" loc).avg_daily_hours ∧
          (calculate_productivity_metrics store today dom "month" loc).avg_daily_hours ≤
            get_expected_hours loc + 2) →
        Insight.hoursIncrease ∉ generate_insights store today dom loc ∧
        Insight.hoursHigh ∉ generate_insights store today dom loc ∧
        Insight.hoursTarget ∉ generate_insights store today dom loc) := by
  intro store today dom loc
  obtain ⟨k1, k2, k3⟩ := insights_hours_mem store today dom loc
  refine ⟨k1, k2, k3, ?_⟩
  rintro (⟨hg1, hg2⟩ | ⟨hg1, hg2⟩) <;>
    refine ⟨?_, ?_, ?_⟩ <;>
    first
      | (rw [k1]; intro hcon; linarith)
      | (rw [k2]; intro hcon; linarith)
      | (rw [k3]; intro hcon; rw [abs_le] at hcon; rcases hcon with ⟨h1, h2⟩; linarith)

/-- C6 witness: the empty store yields avg 0 under the onshore target 8, so
the increase-hours message is present. -/
theorem claim6_witness :
    Insight.hoursIncrease ∈ generate_insights [] 0 1 "onshore" :=
  (claim6_hours_message_conditions [] 0 1 "onshore").1.mpr (by
    simp [calculate_productivity_metrics, get_user_entries, period_start, get_expected_hours])

/-- C9: `export_data` for a user with zero stored entries returns the single
"no data" sentinel for every format argument, before any format dispatch. -/
theorem claim9_export_no_data :
    ∀ format_type : String, export_data [] format_type = .noData := by
  intro format_type
  simp [export_data]

/-- C10: the two return branches of `calculate_productivity_metrics` have
different key sets: the empty-window dictionary carries a `trends` key and no
`consistency_score` key, while every non-empty-window dictionary carries
`consistency_score` and no `trends`. -/
theorem claim10_branch_key_sets :
    (∀ (store : List Entry) (today : ℤ) (dom : ℕ) (period loc : String),
      get_user_entries store (period_start today dom period) today = [] →
      (calculate_productivity_metrics store today dom period loc).trends = some () ∧
      (calculate_productivity_metrics store today dom period loc).consistency_score = none) ∧
    (∀ (store : List Entry) (today : ℤ) (dom : ℕ) (period loc : String),
      get_user_entries store (period_start today dom period) today ≠ [] →
      (calculate_productivity_metrics store today dom period loc).trends = none ∧
      ∃ q, (calculate_productivity_metrics store today dom period loc).consistency_score = some q) := by
  constructor
  · intro store today dom period loc h
    simp [calculate_productivity_metrics, if_pos h]
  · intro store today dom period loc h
    simp [calculate_productivity_metrics, if_neg h]

/-- C10 witness: the empty store takes the trends-shaped branch while a
populated window takes the consistency-shaped branch. -/
theorem claim10_witness :
    ((calculate_productivity_metrics [] 0 15 "week" "onshore").trends = some () ∧
      (calculate_productivity_metrics [] 0 15 "week" "onshore").consistency_score = none) ∧
    ((calculate_productivity_metrics weekStore5 0 15 "week" "onshore").trends = none ∧
      ∃ q, (calculate_productivity_metrics weekStore5 0 15 "week" "onshore").consistency_score = some q) :=
  ⟨claim10_branch_key_sets.1 [] 0 15 "week" "onshore" (by decide),
    claim10_branch_key_sets.2 weekStore5 0 15 "week" "onshore" (by decide)⟩

end ProdTracker
